import Mathlib

/-!
Verification of the VeracodeTUI client against its specification.

This file shallowly embeds the Go sources of the repository:

* `veracode/auth.go` — the HMAC-SHA-256 request signer (`GenerateAuthHeader`,
  `calculateSignature`, `hmac256`), together with a full executable SHA-256
  over `Nat` bytes (Go's `crypto/sha256`/`crypto/hmac` are modelled
  bit-exactly: 32-bit words are `Nat` reduced `% 2^32`).
* `veracode/client.go` — the transport's response classification
  (`doRequestWithBaseURL`'s status-code handling and `HTTPError`).
* `services/applications/service.go`, `services/findings/service.go`,
  `services/annotations/service.go` — resource clients: validation,
  query-parameter construction, and request issuing, instrumented with a
  spy transport that records every issued request.
* `ui/applications_view.go` — the applications-list session state:
  filter handlers, `triggerApplicationsSearch`, `loadApplications`'s
  completion handling, date validation (`isValidDate`), and the
  `sort.Slice` call (modelled relationally, since Go's `sort.Slice`
  guarantees a sorted permutation but not stability).

External collaborators (Go's `url.Parse`, `time.Now`, `rand.Read`,
`json.Unmarshal`, the terminal widget library) are treated as injected
inputs or abstract parameters, exactly where the spec declares them out of
scope.
-/

namespace Veracode

/-! ## SHA-256 over byte lists (Go `crypto/sha256`) -/

/-- Modulus of a 32-bit word. -/
def w32 : Nat := 4294967296

/-- Addition modulo 2^32 (Go `uint32` addition). -/
def add32 (a b : Nat) : Nat := (a + b) % w32

/-- Right rotation of a 32-bit word by `n` bits. -/
def rotr (n x : Nat) : Nat := ((x >>> n) + ((x <<< (32 - n)) % w32)) % w32

/-- Logical right shift of a 32-bit word. -/
def shr (n x : Nat) : Nat := x >>> n

/-- Bitwise complement within 32 bits. -/
def not32 (x : Nat) : Nat := x ^^^ 4294967295

/-- SHA-256 `Ch` function. -/
def ch (x y z : Nat) : Nat := (x &&& y) ^^^ (not32 x &&& z)

/-- SHA-256 `Maj` function. -/
def maj (x y z : Nat) : Nat := (x &&& y) ^^^ (x &&& z) ^^^ (y &&& z)

/-- SHA-256 big sigma 0. -/
def bsig0 (x : Nat) : Nat := rotr 2 x ^^^ rotr 13 x ^^^ rotr 22 x

/-- SHA-256 big sigma 1. -/
def bsig1 (x : Nat) : Nat := rotr 6 x ^^^ rotr 11 x ^^^ rotr 25 x

/-- SHA-256 small sigma 0. -/
def ssig0 (x : Nat) : Nat := rotr 7 x ^^^ rotr 18 x ^^^ shr 3 x

/-- SHA-256 small sigma 1. -/
def ssig1 (x : Nat) : Nat := rotr 17 x ^^^ rotr 19 x ^^^ shr 10 x

/-- The 64 SHA-256 round constants (FIPS 180-4, written in decimal). -/
def sha256K : List Nat :=
  [1116352408, 1899447441, 3049323471, 3921009573,
   961987163, 1508970993, 2453635748, 2870763221,
   3624381080, 310598401, 607225278, 1426881987,
   1925078388, 2162078206, 2614888103, 3248222580,
   3835390401, 4022224774, 264347078, 604807628,
   770255983, 1249150122, 1555081692, 1996064986,
   2554220882, 2821834349, 2952996808, 3210313671,
   3336571891, 3584528711, 113926993, 338241895,
   666307205, 773529912, 1294757372, 1396182291,
   1695183700, 1986661051, 2177026350, 2456956037,
   2730485921, 2820302411, 3259730800, 3345764771,
   3516065817, 3600352804, 4094571909, 275423344,
   430227734, 506948616, 659060556, 883997877,
   958139571, 1322822218, 1537002063, 1747873779,
   1955562222, 2024104815, 2227730452, 2361852424,
   2428436474, 2756734187, 3204031479, 3329325298]

/-- The eight 32-bit working variables of the SHA-256 compression function. -/
structure HashState where
  a : Nat
  b : Nat
  c : Nat
  d : Nat
  e : Nat
  f : Nat
  g : Nat
  h : Nat

/-- SHA-256 initial hash value (FIPS 180-4, written in decimal). -/
def sha256Init : HashState :=
  ⟨1779033703, 3144134277, 1013904242, 2773480762,
   1359893119, 2600822924, 528734635, 1541459225⟩

/-- One round of the SHA-256 compression function; `kw` pairs a round
constant with a message-schedule word. -/
def sha256Round (st : HashState) (kw : Nat × Nat) : HashState :=
  let t1 := add32 st.h (add32 (bsig1 st.e) (add32 (ch st.e st.f st.g) (add32 kw.1 kw.2)))
  let t2 := add32 (bsig0 st.a) (maj st.a st.b st.c)
  ⟨add32 t1 t2, st.a, st.b, st.c, add32 st.d t1, st.e, st.f, st.g⟩

/-- Next word of the message schedule, computed from the last 16 words. -/
def nextScheduleWord (ws : List Nat) : Nat :=
  let t := ws.length
  add32 (add32 (ssig1 (ws.getD (t - 2) 0)) (ws.getD (t - 7) 0))
        (add32 (ssig0 (ws.getD (t - 15) 0)) (ws.getD (t - 16) 0))

/-- Extend a message schedule by `n` further words. -/
def extendSchedule : Nat → List Nat → List Nat
  | 0, ws => ws
  | n + 1, ws => extendSchedule n (ws ++ [nextScheduleWord ws])

/-- Fuel-driven worker for `chunksOf`: structural recursion on the fuel
keeps the definition kernel-reducible. With positive `n`, fuel equal to
the list length always suffices, since every step drops at least one
element. -/
def chunksOfAux : Nat → Nat → List Nat → List (List Nat)
  | 0, _, _ => []
  | _ + 1, _, [] => []
  | fuel + 1, n, x :: xs => (x :: xs).take n :: chunksOfAux fuel n ((x :: xs).drop n)

/-- Split a byte list into chunks of `n` bytes (the last chunk may be
shorter; callers always pass lists whose length is a multiple of `n`). -/
def chunksOf (n : Nat) (l : List Nat) : List (List Nat) :=
  chunksOfAux l.length n l

/-- Big-endian 32-bit word from four bytes. -/
def wordOfBytes (bs : List Nat) : Nat :=
  bs.getD 0 0 * 16777216 + bs.getD 1 0 * 65536 + bs.getD 2 0 * 256 + bs.getD 3 0

/-- The four big-endian bytes of a 32-bit word. -/
def bytesOfWord (w : Nat) : List Nat :=
  [w / 16777216 % 256, w / 65536 % 256, w / 256 % 256, w % 256]

/-- Compress one 64-byte block into the running hash state. -/
def sha256Compress (st : HashState) (block : List Nat) : HashState :=
  let ws := extendSchedule 48 ((chunksOf 4 block).map wordOfBytes)
  let r := (sha256K.zip ws).foldl sha256Round st
  ⟨add32 st.a r.a, add32 st.b r.b, add32 st.c r.c, add32 st.d r.d,
   add32 st.e r.e, add32 st.f r.f, add32 st.g r.g, add32 st.h r.h⟩

/-- SHA-256 padding for a message of `len` bytes: a 0x80 byte, zero fill
to 56 mod 64, then the bit length as a big-endian 64-bit integer. -/
def sha256Pad (len : Nat) : List Nat :=
  let zeros := (119 - len % 64) % 64
  let bits := len * 8
  128 :: List.replicate zeros 0 ++
    [bits / 72057594037927936 % 256, bits / 281474976710656 % 256,
     bits / 1099511627776 % 256, bits / 4294967296 % 256,
     bits / 16777216 % 256, bits / 65536 % 256, bits / 256 % 256, bits % 256]

/-- The 32 digest bytes of a final hash state. -/
def digestBytes (st : HashState) : List Nat :=
  bytesOfWord st.a ++ bytesOfWord st.b ++ bytesOfWord st.c ++ bytesOfWord st.d ++
  bytesOfWord st.e ++ bytesOfWord st.f ++ bytesOfWord st.g ++ bytesOfWord st.h

/-- SHA-256 of a byte list (Go `sha256.Sum256` over the same bytes). -/
def sha256 (msg : List Nat) : List Nat :=
  digestBytes ((chunksOf 64 (msg ++ sha256Pad msg.length)).foldl sha256Compress sha256Init)

/-- Digest serialization always yields 32 bytes. -/
theorem digestBytes_length (st : HashState) : (digestBytes st).length = 32 := by
  simp [digestBytes, bytesOfWord]

/-- Every byte of a digest serialization is below 256. -/
theorem digestBytes_lt (st : HashState) : ∀ x ∈ digestBytes st, x < 256 := by
  intro x hx
  simp only [digestBytes, bytesOfWord, List.mem_append, List.mem_cons,
    List.not_mem_nil, or_false] at hx
  omega

/-- SHA-256 always produces exactly 32 bytes. -/
theorem sha256_length (msg : List Nat) : (sha256 msg).length = 32 :=
  digestBytes_length _

/-- Every SHA-256 output byte is below 256. -/
theorem sha256_lt (msg : List Nat) : ∀ x ∈ sha256 msg, x < 256 :=
  digestBytes_lt _

/-! ## HMAC-SHA-256 and the request signer (`veracode/auth.go`) -/

/-- HMAC-SHA-256 with the argument order of `auth.go`'s
`hmac256(message, key)` (Go `hmac.New(sha256.New, key)` then
`mac.Write(message)`): the key is hashed when longer than the 64-byte
block, zero-padded to the block size, and combined with the inner pad
`0x36` and outer pad `0x5c`. -/
def hmac256 (message key : List Nat) : List Nat :=
  let k0 := if key.length > 64 then sha256 key else key
  let kp := k0 ++ List.replicate (64 - k0.length) 0
  sha256 (kp.map (fun b => b ^^^ 92) ++ sha256 (kp.map (fun b => b ^^^ 54) ++ message))

/-- Protocol constant from `auth.go`. -/
def veracodeRequestVersionString : String := "vcode_request_version_1"

/-- Bytes of an ASCII string (Go `[]byte(s)`; every string the signer
handles is ASCII, where UTF-8 bytes and code points coincide). -/
def strBytes (s : String) : List Nat := s.data.map Char.toNat

/-- The four-round HMAC chain of `auth.go`'s `calculateSignature`. -/
def calculateSignature (key nonce timestamp data : List Nat) : List Nat :=
  let encryptedNonce := hmac256 nonce key
  let encryptedTimestamp := hmac256 timestamp encryptedNonce
  let signingKey := hmac256 (strBytes veracodeRequestVersionString) encryptedTimestamp
  hmac256 data signingKey

/-- Uppercase hexadecimal digit for a nibble. -/
def hexDigitU (n : Nat) : Char :=
  "0123456789ABCDEF".data.getD n '0'

/-- Uppercase hex rendering of a byte list (Go `fmt.Sprintf("%X", b)`). -/
def bytesHexUpper (bs : List Nat) : String :=
  ⟨bs.flatMap fun b => [hexDigitU (b / 16), hexDigitU (b % 16)]⟩

/-- Value of a hexadecimal character, if any (Go `encoding/hex`). -/
def hexCharVal (c : Char) : Option Nat :=
  if '0' ≤ c ∧ c ≤ '9' then some (c.toNat - '0'.toNat)
  else if 'a' ≤ c ∧ c ≤ 'f' then some (c.toNat - 'a'.toNat + 10)
  else if 'A' ≤ c ∧ c ≤ 'F' then some (c.toNat - 'A'.toNat + 10)
  else none

/-- Decode a hex string two characters at a time; `none` on an odd-length
string or any non-hex character (Go `hex.DecodeString`). -/
def hexDecodeChars : List Char → Option (List Nat)
  | [] => some []
  | [_] => none
  | hi :: lo :: rest =>
    match hexCharVal hi, hexCharVal lo, hexDecodeChars rest with
    | some h, some l, some bs => some ((h * 16 + l) :: bs)
    | _, _, _ => none

/-- Go `hex.DecodeString` on a string. -/
def hexDecode (s : String) : Option (List Nat) := hexDecodeChars s.data

/-- Embedding of `auth.go`'s `GenerateAuthHeader`. External collaborators
are injected: `host` and `requestURI` stand for `url.Parse(requestURL)`'s
`Hostname()` and `RequestURI()`, and `nonce` and `timestampStr` stand for
the `rand.Read` nonce and `time.Now` millisecond timestamp, which the
claim fixes for determinism. Returns `none` exactly when the secret is
not valid hex (Go's error return). -/
def generateAuthHeader (apiKeyID apiKeySecret httpMethod host requestURI : String)
    (nonce : List Nat) (timestampStr : String) : Option String :=
  let data := "id=" ++ apiKeyID ++ "&host=" ++ host ++ "&url=" ++ requestURI ++
    "&method=" ++ httpMethod
  match hexDecode apiKeySecret with
  | none => none
  | some keyBytes =>
    let signature := calculateSignature keyBytes nonce (strBytes timestampStr) (strBytes data)
    some ("VERACODE-HMAC-SHA-256 id=" ++ apiKeyID ++ ",ts=" ++ timestampStr ++
      ",nonce=" ++ bytesHexUpper nonce ++ ",sig=" ++ bytesHexUpper signature)

/-- Characters allowed in an uppercase hex rendering. -/
def isUpperHexChar (c : Char) : Prop := c ∈ "0123456789ABCDEF".data

instance (c : Char) : Decidable (isUpperHexChar c) := by
  unfold isUpperHexChar; infer_instance

/-- Hex rendering doubles the length. -/
theorem bytesHexUpper_length (bs : List Nat) :
    (bytesHexUpper bs).length = 2 * bs.length := by
  induction bs with
  | nil => rfl
  | cons b rest ih =>
    simp only [bytesHexUpper, String.length, List.flatMap_cons] at *
    simp only [List.length_append, List.length_cons, List.length_nil] at *
    omega

/-- Hex digits of values below 16 are uppercase hex characters. -/
theorem hexDigitU_mem (n : Nat) (h : n < 16) : isUpperHexChar (hexDigitU n) := by
  interval_cases n <;> decide

/-- Every character of the hex rendering of genuine bytes is an uppercase
hex character. -/
theorem bytesHexUpper_upperHex (bs : List Nat) (hb : ∀ b ∈ bs, b < 256) :
    ∀ c ∈ (bytesHexUpper bs).data, isUpperHexChar c := by
  intro c hc
  simp only [bytesHexUpper, List.mem_flatMap] at hc
  obtain ⟨b, hbmem, hcmem⟩ := hc
  have hlt := hb b hbmem
  simp only [List.mem_cons, List.not_mem_nil, or_false] at hcmem
  rcases hcmem with rfl | rfl
  · exact hexDigitU_mem _ (by omega)
  · exact hexDigitU_mem _ (Nat.mod_lt _ (by norm_num))

/-- HMAC output always has 32 bytes. -/
theorem hmac256_length (message key : List Nat) : (hmac256 message key).length = 32 :=
  sha256_length _

/-- Every HMAC output byte is below 256. -/
theorem hmac256_lt (message key : List Nat) : ∀ x ∈ hmac256 message key, x < 256 :=
  sha256_lt _

set_option maxRecDepth 100000 in
/-- Validation of the SHA-256 embedding against the FIPS 180-4 known
answer for the message `abc`. -/
theorem sha256_known_vector :
    bytesHexUpper (sha256 (strBytes "abc")) =
      "BA7816BF8F01CFEA414140DE5DAE2223B00361A396177A9CB410FF61F20015AD" := by
  decide

set_option maxRecDepth 100000 in
/-- Validation of the HMAC-SHA-256 embedding against RFC 4231 test case
2 (key `Jefe`). -/
theorem hmac256_known_vector :
    bytesHexUpper (hmac256 (strBytes "what do ya want for nothing?") (strBytes "Jefe")) =
      "5BDCC146BF60754E6A042426089575C75A003F089D2739839DEC58B964EC3843" := by
  decide

/-- The full property bundle of `GenerateAuthHeader` stated by the spec:
header grammar, nonce and signature hex shape, and the four-round HMAC
chain. Determinism is inherent: the embedding is a pure function of the
injected inputs. -/
def AuthHeaderSpec (keyID secret method host uri tsStr : String)
    (nonce key : List Nat) : Prop :=
  let data := "id=" ++ keyID ++ "&host=" ++ host ++ "&url=" ++ uri ++
    "&method=" ++ method
  let sig := calculateSignature key nonce (strBytes tsStr) (strBytes data)
  generateAuthHeader keyID secret method host uri nonce tsStr =
      some ("VERACODE-HMAC-SHA-256 id=" ++ keyID ++ ",ts=" ++ tsStr ++
        ",nonce=" ++ bytesHexUpper nonce ++ ",sig=" ++ bytesHexUpper sig) ∧
    (bytesHexUpper nonce).length = 32 ∧
    (∀ c ∈ (bytesHexUpper nonce).data, isUpperHexChar c) ∧
    (bytesHexUpper sig).length = 64 ∧
    (∀ c ∈ (bytesHexUpper sig).data, isUpperHexChar c) ∧
    sig = hmac256 (strBytes data)
      (hmac256 (strBytes veracodeRequestVersionString)
        (hmac256 (strBytes tsStr) (hmac256 nonce key)))

/-- C1: for every valid key ID, hex secret, method and URL (nonce and
timestamp injected), `GenerateAuthHeader` yields the header
`VERACODE-HMAC-SHA-256 id=...,ts=...,nonce=...,sig=...` whose nonce is
exactly 32 uppercase hex characters (16 bytes), whose sig is exactly 64
uppercase hex characters (32 bytes), and whose signature is the 4-round
HMAC-SHA256 chain; the same inputs always give the same signature. -/
theorem generateAuthHeader_spec (keyID secret method host uri tsStr : String)
    (nonce key : List Nat)
    (hsec : hexDecode secret = some key)
    (hlen : nonce.length = 16)
    (hbytes : ∀ b ∈ nonce, b < 256) :
    AuthHeaderSpec keyID secret method host uri tsStr nonce key := by
  refine ⟨?_, ?_, ?_, ?_, ?_, rfl⟩
  · simp only [generateAuthHeader, hexDecode] at *
    rw [show hexDecodeChars secret.data = some key from hsec]
  · rw [bytesHexUpper_length, hlen]
  · exact bytesHexUpper_upperHex nonce hbytes
  · rw [bytesHexUpper_length, calculateSignature, hmac256_length]
  · exact bytesHexUpper_upperHex _ (hmac256_lt _ _)

/-- Witness for C1 at a concrete credential, method, URL, nonce and
timestamp. -/
theorem generateAuthHeader_spec_witness :
    AuthHeaderSpec "vera01ei-f00d" "0a0b0c0d" "GET" "api.veracode.com"
      "/appsec/v1/applications?size=10" "1700000000000"
      [0, 1, 2, 3, 4, 5, 6, 7, 8, 9, 10, 11, 12, 13, 14, 15] [10, 11, 12, 13] :=
  generateAuthHeader_spec "vera01ei-f00d" "0a0b0c0d" "GET" "api.veracode.com"
    "/appsec/v1/applications?size=10" "1700000000000"
    [0, 1, 2, 3, 4, 5, 6, 7, 8, 9, 10, 11, 12, 13, 14, 15] [10, 11, 12, 13]
    (by decide) (by decide) (by decide)

/-! ## Transport response classification (`veracode/client.go`) -/

/-- Go `HTTPError`: a non-2xx response with its code, status text and raw
body, from `client.go`. -/
structure HTTPError where
  statusCode : Nat
  status : String
  body : List Nat
deriving DecidableEq

/-- An HTTP response as delivered by Go's `http.Client.Do`. -/
structure HttpResponse where
  statusCode : Nat
  status : String
  body : List Nat
deriving DecidableEq

/-- Outcome of `doRequestWithBaseURL`: a transport-level failure below the
HTTP layer, or an `HTTPError`, or the raw body bytes. -/
inductive RequestOutcome where
  | transportFailure (msg : String)
  | httpFailure (e : HTTPError)
  | success (body : List Nat)
deriving DecidableEq

/-- Embedding of the response handling of `client.go`'s
`doRequestWithBaseURL` (lines 127-158): the underlying `http.Client.Do`
either fails below the HTTP layer or yields a response; a status outside
[200,300) becomes an `HTTPError` carrying code, status text and the body
read verbatim, and a status inside the interval yields the body bytes.
Header construction and debug logging do not affect this classification
and are omitted. -/
def doRequestWithBaseURL (httpDo : Except String HttpResponse) : RequestOutcome :=
  match httpDo with
  | .error e => .transportFailure ("request failed: " ++ e)
  | .ok resp =>
    if resp.statusCode < 200 ∨ resp.statusCode ≥ 300 then
      .httpFailure ⟨resp.statusCode, resp.status, resp.body⟩
    else
      .success resp.body

/-- C8: a completed response outside [200,300) yields an `HTTPError`
preserving status code, status text and the raw body verbatim, and no
payload; a response inside [200,300) yields the raw body with no error. -/
theorem doRequest_status_classification (resp : HttpResponse) :
    (resp.statusCode < 200 ∨ resp.statusCode ≥ 300 →
      doRequestWithBaseURL (.ok resp) =
        .httpFailure ⟨resp.statusCode, resp.status, resp.body⟩) ∧
    (200 ≤ resp.statusCode ∧ resp.statusCode < 300 →
      doRequestWithBaseURL (.ok resp) = .success resp.body) := by
  constructor
  · intro h
    simp [doRequestWithBaseURL, h]
  · intro h
    have : ¬ (resp.statusCode < 200 ∨ resp.statusCode ≥ 300) := by omega
    simp [doRequestWithBaseURL, this]

/-- Witness for C8: a 404 with body `{"message":"not found"}` surfaces as
an `HTTPError` with the body verbatim, and a 200 returns its body. -/
theorem doRequest_status_classification_witness :
    ((404 : Nat) < 200 ∨ (404 : Nat) ≥ 300) ∧
    doRequestWithBaseURL (.ok ⟨404, "404 Not Found",
        strBytes "\x7b\"message\":\"not found\"\x7d"⟩) =
      .httpFailure ⟨404, "404 Not Found", strBytes "\x7b\"message\":\"not found\"\x7d"⟩ ∧
    ((200 : Nat) ≥ 200 ∧ (200 : Nat) < 300) ∧
    doRequestWithBaseURL (.ok ⟨200, "200 OK", strBytes "ok"⟩) = .success (strBytes "ok") :=
  ⟨by decide,
   (doRequest_status_classification ⟨404, "404 Not Found",
     strBytes "\x7b\"message\":\"not found\"\x7d"⟩).1 (by decide),
   by decide,
   (doRequest_status_classification ⟨200, "200 OK", strBytes "ok"⟩).2 (by decide)⟩

/-! ## Resource clients (`services/applications`, `services/findings`,
`services/annotations`)

Each service depends on the `HTTPClient` Go interface; the embedding takes
the transport as a function and instruments every operation with a spy:
the second component of each result lists the requests actually handed to
the transport, so "zero transport invocations" is the literal statement
`requests = []`. JSON encoding and decoding (`json.Marshal`,
`json.Unmarshal`) are external collaborators and are passed in as
functions. -/

/-- An outbound request as assembled by a service operation. -/
structure Request where
  method : String
  urlPath : String
  params : List (String × String)
  reqBody : Option (List Nat)
deriving DecidableEq

/-- The transport: Go's `HTTPClient` interface methods. -/
def Transport : Type := Request → Except String (List Nat)

/-- Go `applications.GetApplicationsOptions` (all fields, zero values as
field defaults, matching Go's zero-valued struct fields). -/
structure GetApplicationsOptions where
  businessUnit : String := ""
  customFieldNames : List String := []
  customFieldValues : List String := []
  legacyID : Int := 0
  modifiedAfter : String := ""
  name : String := ""
  page : Int := 0
  policy : String := ""
  policyCompliance : String := ""
  policyComplianceCheckedAfter : String := ""
  policyGUID : String := ""
  scanStatus : List String := []
  scanType : String := ""
  size : Int := 0
  sortByCustomFieldName : String := ""
  tag : String := ""
  team : String := ""
deriving DecidableEq

/-- Embedding of `buildApplicationQueryParams` from
`services/applications/service.go`: each optional parameter is added
exactly under the source's condition, in source order (`url.Values.Add`
order; the claims concern key presence, which encoding order preserves). -/
def buildApplicationQueryParams (opts : Option GetApplicationsOptions) :
    List (String × String) :=
  match opts with
  | none => []
  | some o =>
    (if o.businessUnit ≠ "" then [("business_unit", o.businessUnit)] else []) ++
    (o.customFieldNames.map fun n => ("custom_field_names", n)) ++
    (o.customFieldValues.map fun v => ("custom_field_values", v)) ++
    (if o.legacyID > 0 then [("legacy_id", toString o.legacyID)] else []) ++
    (if o.modifiedAfter ≠ "" then [("modified_after", o.modifiedAfter)] else []) ++
    (if o.name ≠ "" then [("name", o.name)] else []) ++
    (if o.page > 0 then [("page", toString o.page)] else []) ++
    (if o.policy ≠ "" then [("policy", o.policy)] else []) ++
    (if o.policyCompliance ≠ "" then [("policy_compliance", o.policyCompliance)] else []) ++
    (if o.policyComplianceCheckedAfter ≠ "" then
      [("policy_compliance_checked_after", o.policyComplianceCheckedAfter)] else []) ++
    (if o.policyGUID ≠ "" then [("policy_guid", o.policyGUID)] else []) ++
    (o.scanStatus.map fun s => ("scan_status", s)) ++
    (if o.scanType ≠ "" then [("scan_type", o.scanType)] else []) ++
    (if o.size > 0 then [("size", toString o.size)] else []) ++
    (if o.sortByCustomFieldName ≠ "" then
      [("sort_by_custom_field_name", o.sortByCustomFieldName)] else []) ++
    (if o.tag ≠ "" then [("tag", o.tag)] else []) ++
    (if o.team ≠ "" then [("team", o.team)] else [])

/-- Base path of the applications service. -/
def applicationsBasePath : String := "/appsec/v1/applications"

/-- Base path of the findings service. -/
def findingsBasePath : String := "/appsec/v2/applications"

/-- Base path of the annotations service. -/
def annotationsBasePath : String := "/appsec/v2/applications"

/-- Run one GET through the transport and decode, recording the request
(the shared tail of every GET-shaped service operation). -/
def runGet {α : Type} (transport : Transport) (decode : List Nat → Except String α)
    (parseErrPrefix : String) (req : Request) : Except String α × List Request :=
  match transport req with
  | .error e => (.error e, [req])
  | .ok respBody =>
    match decode respBody with
    | .error e => (.error (parseErrPrefix ++ e), [req])
    | .ok r => (.ok r, [req])

/-- Embedding of `applications.GetApplications`: no required identifier,
builds query parameters and issues a GET. -/
def getApplications {α : Type} (transport : Transport)
    (decode : List Nat → Except String α)
    (opts : Option GetApplicationsOptions) : Except String α × List Request :=
  runGet transport decode "failed to parse applications response: "
    ⟨"GET", applicationsBasePath, buildApplicationQueryParams opts, none⟩

/-- Embedding of `applications.GetApplication`. -/
def getApplication {α : Type} (transport : Transport)
    (decode : List Nat → Except String α)
    (applicationGUID : String) : Except String α × List Request :=
  if applicationGUID = "" then (.error "applicationGUID is required", [])
  else
    runGet transport decode "failed to parse application response: "
      ⟨"GET", applicationsBasePath ++ "/" ++ applicationGUID, [], none⟩

/-- Go `applications.GetSandboxesOptions`. -/
structure GetSandboxesOptions where
  page : Int := 0
  size : Int := 0
deriving DecidableEq

/-- Embedding of `applications.GetSandboxes`. -/
def getSandboxes {α : Type} (transport : Transport)
    (decode : List Nat → Except String α)
    (applicationGUID : String) (opts : Option GetSandboxesOptions) :
    Except String α × List Request :=
  if applicationGUID = "" then (.error "applicationGUID is required", [])
  else
    let params :=
      match opts with
      | none => []
      | some o =>
        (if o.page > 0 then [("page", toString o.page)] else []) ++
        (if o.size > 0 then [("size", toString o.size)] else [])
    runGet transport decode "failed to parse sandboxes response: "
      ⟨"GET", applicationsBasePath ++ "/" ++ applicationGUID ++ "/sandboxes", params, none⟩

/-- Embedding of `applications.GetSandbox`. -/
def getSandbox {α : Type} (transport : Transport)
    (decode : List Nat → Except String α)
    (applicationGUID sandboxGUID : String) : Except String α × List Request :=
  if applicationGUID = "" then (.error "applicationGUID is required", [])
  else if sandboxGUID = "" then (.error "sandboxGUID is required", [])
  else
    runGet transport decode "failed to parse sandbox response: "
      ⟨"GET", applicationsBasePath ++ "/" ++ applicationGUID ++ "/sandboxes/" ++ sandboxGUID,
        [], none⟩

/-- Go `findings.GetFindingsOptions`. -/
structure GetFindingsOptions where
  context : String := ""
  scanType : List String := []
  severity : Int := 0
  severityGTE : Int := 0
  violatesPolicy : Option Bool := none
  includeAnnot : Bool := false
  size : Int := 0
  page : Int := 0
deriving DecidableEq

/-- Query construction of `findings.GetFindings` (`service.go` lines
416-443), in source order. -/
def findingsQueryParams (opts : Option GetFindingsOptions) : List (String × String) :=
  match opts with
  | none => []
  | some o =>
    (if o.context ≠ "" then [("context", o.context)] else []) ++
    (o.scanType.map fun s => ("scan_type", s)) ++
    (if o.severity > 0 then [("severity", toString o.severity)] else []) ++
    (if o.severityGTE > 0 then [("severity_gte", toString o.severityGTE)] else []) ++
    (match o.violatesPolicy with
      | some b => [("violates_policy", if b then "true" else "false")]
      | none => []) ++
    (if o.includeAnnot then [("include_annot", "true")] else []) ++
    (if o.size > 0 then [("size", toString o.size)] else []) ++
    (if o.page > 0 then [("page", toString o.page)] else [])

/-- Embedding of `findings.GetFindings`: validates the application GUID
before any transport call. -/
def getFindings {α : Type} (transport : Transport)
    (decode : List Nat → Except String α)
    (applicationGUID : String) (opts : Option GetFindingsOptions) :
    Except String α × List Request :=
  if applicationGUID = "" then (.error "applicationGUID is required", [])
  else
    runGet transport decode "failed to parse findings response: "
      ⟨"GET", findingsBasePath ++ "/" ++ applicationGUID ++ "/findings",
        findingsQueryParams opts, none⟩

/-- Embedding of `findings.GetStaticFlawInfo` (`service.go` lines
460-485): validates GUID and issue ID, then adds the `context` query
parameter exactly when the `context` argument is non-empty. -/
def getStaticFlawInfo {α : Type} (transport : Transport)
    (decode : List Nat → Except String α)
    (applicationGUID : String) (issueID : Int) (context : String) :
    Except String α × List Request :=
  if applicationGUID = "" then (.error "applicationGUID is required", [])
  else if issueID = 0 then (.error "issueID is required", [])
  else
    runGet transport decode "failed to parse static flaw info response: "
      ⟨"GET", findingsBasePath ++ "/" ++ applicationGUID ++ "/findings/" ++
        toString issueID ++ "/static_flaw_info",
        (if context ≠ "" then [("context", context)] else []), none⟩

/-- Go `annotations.AnnotationData`. -/
structure AnnotationData where
  issueList : String := ""
  comment : String := ""
  action : String := ""
deriving DecidableEq

/-- Go `annotations.AnnotationResponse` (zero value has `Findings` empty). -/
structure AnnotationResponse where
  findings : String := ""
deriving DecidableEq

/-- Go `annotations.CreateAnnotationOptions`. -/
structure CreateAnnotOptions where
  context : String := ""
deriving DecidableEq

/-- Embedding of `annotations.CreateAnnotation` (named `createAnnot` here
because Lean names in this development avoid the suffix of the Go name):
validates GUID, annotation presence and issue list before any transport
call; marshals the body, POSTs, and decodes the response only when the
body is non-empty, otherwise returning the zero-valued response. -/
def createAnnot (transport : Transport)
    (marshal : AnnotationData → List Nat)
    (decode : List Nat → Except String AnnotationResponse)
    (applicationGUID : String) (ann : Option AnnotationData)
    (opts : Option CreateAnnotOptions) :
    Except String AnnotationResponse × List Request :=
  if applicationGUID = "" then (.error "applicationGUID is required", [])
  else
    match ann with
    | none => (.error "annotation is required", [])
    | some a =>
      if a.issueList = "" then (.error "issue_list is required", [])
      else
        let params :=
          match opts with
          | some o => if o.context ≠ "" then [("context", o.context)] else []
          | none => []
        let req : Request := ⟨"POST",
          annotationsBasePath ++ "/" ++ applicationGUID ++ "/annotations",
          params, some (marshal a)⟩
        match transport req with
        | .error e => (.error e, [req])
        | .ok respBody =>
          if respBody.length > 0 then
            match decode respBody with
            | .error e => (.error ("failed to parse annotation response: " ++ e), [req])
            | .ok r => (.ok r, [req])
          else
            (.ok {}, [req])

/-- Spy list of a GET-shaped operation is exactly its one request. -/
theorem runGet_requests {α : Type} (t : Transport) (d : List Nat → Except String α)
    (p : String) (req : Request) : (runGet t d p req).2 = [req] := by
  unfold runGet
  rcases ht : t req with e | b
  · simp [ht]
  · rcases hd : d b with e | r <;> simp [ht, hd]

/-- Key membership for a conditional single-parameter segment. -/
theorem key_mem_ite (c : Prop) [Decidable c] (k k0 v : String) :
    (k ∈ ((if c then [(k0, v)] else []).map Prod.fst)) ↔ c ∧ k = k0 := by
  split <;> simp_all

/-- Key membership for a repeated-parameter segment. -/
theorem key_mem_pairs (k k0 : String) (l : List String) :
    (k ∈ ((l.map fun s => (k0, s)).map Prod.fst)) ↔ l ≠ [] ∧ k = k0 := by
  cases l <;> simp [List.map_map, Function.comp, eq_comm]

/-- C6: an optional filter parameter appears in the outgoing query string
iff it is set — string filters iff non-empty, numeric filters (severity,
severity_gte, page, size, legacy_id) iff strictly positive, so the value
0 is indistinguishable from unset; a `nil` options struct contributes no
parameters at all. -/
theorem optional_filters_presence (o : GetApplicationsOptions) (f : GetFindingsOptions) :
    (("name" ∈ (buildApplicationQueryParams (some o)).map Prod.fst) ↔ o.name ≠ "") ∧
    (("business_unit" ∈ (buildApplicationQueryParams (some o)).map Prod.fst) ↔
      o.businessUnit ≠ "") ∧
    (("modified_after" ∈ (buildApplicationQueryParams (some o)).map Prod.fst) ↔
      o.modifiedAfter ≠ "") ∧
    (("scan_type" ∈ (buildApplicationQueryParams (some o)).map Prod.fst) ↔
      o.scanType ≠ "") ∧
    (("policy" ∈ (buildApplicationQueryParams (some o)).map Prod.fst) ↔ o.policy ≠ "") ∧
    (("page" ∈ (buildApplicationQueryParams (some o)).map Prod.fst) ↔ o.page > 0) ∧
    (("size" ∈ (buildApplicationQueryParams (some o)).map Prod.fst) ↔ o.size > 0) ∧
    (("legacy_id" ∈ (buildApplicationQueryParams (some o)).map Prod.fst) ↔
      o.legacyID > 0) ∧
    (("context" ∈ (findingsQueryParams (some f)).map Prod.fst) ↔ f.context ≠ "") ∧
    (("severity" ∈ (findingsQueryParams (some f)).map Prod.fst) ↔ f.severity > 0) ∧
    (("severity_gte" ∈ (findingsQueryParams (some f)).map Prod.fst) ↔
      f.severityGTE > 0) ∧
    (("size" ∈ (findingsQueryParams (some f)).map Prod.fst) ↔ f.size > 0) ∧
    (("page" ∈ (findingsQueryParams (some f)).map Prod.fst) ↔ f.page > 0) ∧
    buildApplicationQueryParams none = [] ∧
    findingsQueryParams none = [] := by
  refine ⟨?_, ?_, ?_, ?_, ?_, ?_, ?_, ?_, ?_, ?_, ?_, ?_, ?_, rfl, rfl⟩ <;>
    first
      | (simp only [buildApplicationQueryParams, List.map_append, List.mem_append,
          key_mem_ite, key_mem_pairs]
         simp)
      | (cases hv : f.violatesPolicy <;>
          · simp only [findingsQueryParams, hv, List.map_append, List.mem_append,
              key_mem_ite, key_mem_pairs]
            simp)

/-- C7: every operation with a required identifier rejects an empty (or,
for the issue ID, zero; or, for the annotation, missing/empty-issue-list)
identifier with a validation error and hands nothing to the transport. -/
theorem required_identifier_validation {α : Type} (transport : Transport)
    (decode : List Nat → Except String α)
    (decodeAnn : List Nat → Except String AnnotationResponse)
    (marshal : AnnotationData → List Nat)
    (guid ctx sb : String) (issueID : Int)
    (fopts : Option GetFindingsOptions) (sopts : Option GetSandboxesOptions)
    (aopts : Option CreateAnnotOptions) (a : AnnotationData)
    (hguid : guid ≠ "") (hempty : a.issueList = "") :
    getFindings transport decode "" fopts = (.error "applicationGUID is required", []) ∧
    getStaticFlawInfo transport decode "" issueID ctx =
      (.error "applicationGUID is required", []) ∧
    getStaticFlawInfo transport decode guid 0 ctx = (.error "issueID is required", []) ∧
    getApplication transport decode "" = (.error "applicationGUID is required", []) ∧
    getSandboxes transport decode "" sopts = (.error "applicationGUID is required", []) ∧
    getSandbox transport decode "" sb = (.error "applicationGUID is required", []) ∧
    getSandbox transport decode guid "" = (.error "sandboxGUID is required", []) ∧
    createAnnot transport marshal decodeAnn "" (some a) aopts =
      (.error "applicationGUID is required", []) ∧
    createAnnot transport marshal decodeAnn guid none aopts =
      (.error "annotation is required", []) ∧
    createAnnot transport marshal decodeAnn guid (some a) aopts =
      (.error "issue_list is required", []) := by
  refine ⟨rfl, rfl, ?_, rfl, rfl, rfl, ?_, rfl, ?_, ?_⟩ <;>
    simp [getStaticFlawInfo, getSandbox, createAnnot, hguid, hempty]

/-- Witness for C7 at concrete arguments and a transport that would
answer any request. -/
theorem required_identifier_validation_witness :
    ("app-guid" : String) ≠ "" ∧
    (⟨"", "c", "FP"⟩ : AnnotationData).issueList = "" ∧
    getFindings (α := Unit) (fun _ => .ok (strBytes "ok")) (fun _ => .ok ()) "" none =
      (.error "applicationGUID is required", []) ∧
    getStaticFlawInfo (α := Unit) (fun _ => .ok (strBytes "ok")) (fun _ => .ok ())
      "app-guid" 0 "" = (.error "issueID is required", []) ∧
    getSandbox (α := Unit) (fun _ => .ok (strBytes "ok")) (fun _ => .ok ())
      "app-guid" "" = (.error "sandboxGUID is required", []) ∧
    createAnnot (fun _ => .ok (strBytes "ok")) (fun _ => []) (fun _ => .ok {})
      "app-guid" (some ⟨"", "c", "FP"⟩) none = (.error "issue_list is required", []) :=
  have h := required_identifier_validation (α := Unit) (fun _ => .ok (strBytes "ok"))
    (fun _ => .ok ()) (fun _ => .ok {}) (fun _ => []) "app-guid" "" "sb" 134
    none none none ⟨"", "c", "FP"⟩ (by decide) rfl
  ⟨by decide, rfl, h.1, h.2.2.1, h.2.2.2.2.2.2.1, h.2.2.2.2.2.2.2.2.2⟩

/-- Counterexample for C4: `GetStaticFlawInfo` called with a sandbox GUID
as context does include the `context` query parameter in the request sent
to the `static_flaw_info` endpoint, contradicting the claim that it is
never included. -/
theorem getStaticFlawInfo_context_cex :
    ¬ (∀ r ∈ (getStaticFlawInfo (α := Unit) (fun _ => .ok []) (fun _ => .ok ())
        "app-guid" 134 "sandbox-guid").2, ∀ v, ("context", v) ∉ r.params) := by
  intro h
  exact h ⟨"GET", "/appsec/v2/applications/app-guid/findings/134/static_flaw_info",
      [("context", "sandbox-guid")], none⟩ (by decide) "sandbox-guid" (by decide)

/-- C4 (amended): `GetStaticFlawInfo` forwards the `context` parameter
exactly when its `context` argument is non-empty; the caller must pass an
empty context to this endpoint to apply the workaround the integration
test documents for the server quirk. -/
theorem getStaticFlawInfo_context_iff {α : Type} (transport : Transport)
    (decode : List Nat → Except String α) (guid : String) (issueID : Int)
    (ctx : String) (hguid : guid ≠ "") (hid : issueID ≠ 0) :
    ∀ r ∈ (getStaticFlawInfo transport decode guid issueID ctx).2,
      r.params = if ctx = "" then [] else [("context", ctx)] := by
  intro r hr
  simp only [getStaticFlawInfo, if_neg hguid, if_neg hid, runGet_requests,
    List.mem_singleton] at hr
  subst hr
  by_cases hc : ctx = "" <;> simp [hc]

/-- Witness for the amended C4 at a concrete sandbox context. -/
theorem getStaticFlawInfo_context_iff_witness :
    ("app-guid" : String) ≠ "" ∧ (134 : Int) ≠ 0 ∧
    ∀ r ∈ (getStaticFlawInfo (α := Unit) (fun _ => .ok []) (fun _ => .ok ())
        "app-guid" 134 "sandbox-guid").2,
      r.params = if ("sandbox-guid" : String) = "" then []
        else [("context", "sandbox-guid")] :=
  ⟨by decide, by decide,
   getStaticFlawInfo_context_iff (α := Unit) (fun _ => .ok []) (fun _ => .ok ())
     "app-guid" 134 "sandbox-guid" (by decide) (by decide)⟩

/-- C10: a 2xx response with an empty body makes `CreateAnnotation`
return the zero-valued response and no error, for any decoder — the
decoder is never consulted, so an empty success body is silently
defaulted rather than surfacing a decode error. -/
theorem createAnnot_empty_success_body (transport : Transport)
    (marshal : AnnotationData → List Nat)
    (decode : List Nat → Except String AnnotationResponse)
    (guid : String) (a : AnnotationData) (opts : Option CreateAnnotOptions)
    (hguid : guid ≠ "") (hissue : a.issueList ≠ "")
    (hbody : ∀ r, transport r = .ok []) :
    (createAnnot transport marshal decode guid (some a) opts).1 =
      .ok ({} : AnnotationResponse) := by
  simp [createAnnot, hguid, hissue, hbody]

/-- Witness for C10 with a decoder that always fails, showing it is not
consulted on an empty success body. -/
theorem createAnnot_empty_success_body_witness :
    ("app-guid" : String) ≠ "" ∧ ("123" : String) ≠ "" ∧
    (createAnnot (fun _ => .ok []) (fun _ => []) (fun _ => .error "boom")
      "app-guid" (some ⟨"123", "comment", "FP"⟩) none).1 =
      .ok ({} : AnnotationResponse) :=
  ⟨by decide, by decide,
   createAnnot_empty_success_body (fun _ => .ok []) (fun _ => [])
     (fun _ => .error "boom") "app-guid" ⟨"123", "comment", "FP"⟩ none
     (by decide) (by decide) (fun _ => rfl)⟩

/-! ## Applications-list session state (`ui/applications_view.go`)

The UI struct of `ui/ui.go` holds the session fields; the relevant ones
are embedded in `NavState`. Widget internals (borders, colors, tables)
are presentation and omitted; the input widgets' current text and the
focused widget are kept, because the date-validation claim is about them.
Note that `ui.go`'s UI struct has no request-generation counter field of
any kind. -/

/-- An application as the list view consumes it: only the identity and
the optional modification timestamp (Go `*time.Time`, modelled as an
optional instant) participate in the sort. -/
structure Application where
  guid : String
  modified : Option Int
deriving DecidableEq

/-- The comparator passed to `sort.Slice` in `loadApplications` (lines
766-774): entries without a timestamp compare as not-less; an entry with
a timestamp is less than one without; otherwise `Modified.After` —
descending by instant. -/
def modifiedAfterLess (i j : Application) : Bool :=
  match i.modified with
  | none => false
  | some a =>
    match j.modified with
    | none => true
    | some b => decide (b < a)

/-- Semantics of Go's `sort.Slice` with `modifiedAfterLess`: the output
is a permutation of the input in which no element is less than its
predecessor. Go documents exactly this and explicitly does NOT guarantee
stability (`sort.SliceStable` exists for that), so the embedding is a
relation admitting every sorted permutation. -/
def sortSliceRel (input output : List Application) : Prop :=
  input.Perm output ∧ List.Chain' (fun x y => modifiedAfterLess y x = false) output

instance (input output : List Application) : Decidable (sortSliceRel input output) :=
  inferInstanceAs (Decidable (input.Perm output ∧
    List.Chain' (fun x y => modifiedAfterLess y x = false) output))

/-- Ordered-pair check used to state the sort outcome globally: a
timestamped entry never follows an untimestamped one, and timestamps are
non-increasing. -/
def sortedPairOK (x y : Application) : Bool :=
  match x.modified, y.modified with
  | none, none => true
  | none, some _ => false
  | some _, none => true
  | some a, some b => decide (b ≤ a)

/-- Focusable widgets of the applications view. -/
inductive Focus where
  | applicationsTable
  | searchInput
  | scanStatusFilter
  | scanTypeFilter
  | modifiedAfterInput
deriving DecidableEq

/-- The session fields of the UI struct that the applications-list claims
concern (cursor, totals, filter values, widget texts, status bar,
focus). -/
structure NavState where
  currentPage : Int
  pageSize : Int
  totalPages : Int
  totalApps : Int
  applications : List Application
  searchQuery : String
  scanStatusFilterValue : String
  scanTypeFilterValue : String
  modifiedAfterFilterValue : String
  searchText : String
  modifiedAfterText : String
  statusBar : String
  focus : Focus
deriving DecidableEq

/-- State as `NewUI` initializes it (`ui.go`: `currentPage: 0`,
`pageSize: 100`, everything else zero-valued, focus on the table). -/
def initialNavState : NavState :=
  ⟨0, 100, 0, 0, [], "", "", "", "", "", "", "", .applicationsTable⟩

/-- Option construction of `loadApplications` (lines 724-747): page and
size from the cursor, each filter copied only when non-empty. -/
def buildGetApplicationsOptions (st : NavState) : GetApplicationsOptions :=
  let opts : GetApplicationsOptions := { page := st.currentPage, size := st.pageSize }
  let opts := if st.searchQuery ≠ "" then { opts with name := st.searchQuery } else opts
  let opts := if st.scanStatusFilterValue ≠ "" then
    { opts with scanStatus := [st.scanStatusFilterValue] } else opts
  let opts := if st.scanTypeFilterValue ≠ "" then
    { opts with scanType := st.scanTypeFilterValue } else opts
  if st.modifiedAfterFilterValue ≠ "" then
    { opts with modifiedAfter := st.modifiedAfterFilterValue } else opts

/-- Embedding of `triggerApplicationsSearch` (lines 670-674): reset the
cursor to page 0 and spawn `loadApplications`; the second component is
the options of the fetch that the spawned `loadApplications` issues. -/
def triggerApplicationsSearch (st : NavState) : NavState × GetApplicationsOptions :=
  let st1 := { st with currentPage := 0 }
  (st1, buildGetApplicationsOptions st1)

/-- Enter in the name search field (`SetDoneFunc`, lines 605-614): store
the field text, focus the table, trigger. -/
def searchInputDone (st : NavState) : NavState × Option GetApplicationsOptions :=
  let st1 := { st with searchQuery := st.searchText, focus := .applicationsTable }
  let (st2, opts) := triggerApplicationsSearch st1
  (st2, some opts)

/-- Selection in the scan-status dropdown (`SetSelectedFunc`, lines
365-372): index 0 is "All" and clears the filter, otherwise the option
text is stored; then trigger. -/
def scanStatusSelected (st : NavState) (index : Nat) (text : String) :
    NavState × Option GetApplicationsOptions :=
  let v := if index = 0 then "" else text
  let (st2, opts) := triggerApplicationsSearch { st with scanStatusFilterValue := v }
  (st2, some opts)

/-- Selection in the scan-type dropdown (`SetSelectedFunc`, lines
408-415), same pattern. -/
def scanTypeSelected (st : NavState) (index : Nat) (text : String) :
    NavState × Option GetApplicationsOptions :=
  let v := if index = 0 then "" else text
  let (st2, opts) := triggerApplicationsSearch { st with scanTypeFilterValue := v }
  (st2, some opts)

/-- Leap year per the Gregorian rules Go's `time` package applies. -/
def isLeapYear (y : Nat) : Bool :=
  (y % 4 == 0 && y % 100 != 0) || y % 400 == 0

/-- Days in a month, as Go `time.Parse` validates them. -/
def daysInMonth (y m : Nat) : Nat :=
  if m = 2 then (if isLeapYear y then 29 else 28)
  else if m = 4 ∨ m = 6 ∨ m = 9 ∨ m = 11 then 30
  else 31

/-- Numeric value of a decimal digit character. -/
def digitVal (c : Char) : Nat := c.toNat - '0'.toNat

/-- Embedding of Go `time.Parse("2006-01-02", s)` restricted to success
or failure: the layout demands four year digits, a dash, two month
digits, a dash and two day digits, and Go rejects a month outside 1-12
or a day outside the month's range. -/
def parseDateYMD (s : String) : Option (Nat × Nat × Nat) :=
  match s.data with
  | [y1, y2, y3, y4, c1, m1, m2, c2, d1, d2] =>
    if y1.isDigit && y2.isDigit && y3.isDigit && y4.isDigit &&
       m1.isDigit && m2.isDigit && d1.isDigit && d2.isDigit &&
       c1 == '-' && c2 == '-' then
      let y := digitVal y1 * 1000 + digitVal y2 * 100 + digitVal y3 * 10 + digitVal y4
      let m := digitVal m1 * 10 + digitVal m2
      let d := digitVal d1 * 10 + digitVal d2
      if 1 ≤ m ∧ m ≤ 12 ∧ 1 ≤ d ∧ d ≤ daysInMonth y m then some (y, m, d) else none
    else none
  | _ => none

/-- Embedding of `ui.isValidDate` (lines 877-886): length must be 10 and
`time.Parse("2006-01-02", ...)` must succeed. -/
def isValidDate (s : String) : Bool :=
  s.length == 10 && (parseDateYMD s).isSome

/-- Enter in the modified-after field (`SetDoneFunc`, lines 449-466): a
non-empty invalid date only writes the status bar — the stored filter,
the field text and the focus are untouched and nothing is fetched;
otherwise the value is stored, focus moves to the table and a search is
triggered. -/
def modifiedAfterDone (st : NavState) : NavState × Option GetApplicationsOptions :=
  let dateText := st.modifiedAfterText
  if dateText ≠ "" ∧ ¬ isValidDate dateText then
    ({ st with statusBar :=
        "[red]Invalid date format. Please use yyyy-MM-dd (e.g., 2025-12-17)[-]" }, none)
  else
    let st1 := { st with modifiedAfterFilterValue := dateText, focus := .applicationsTable }
    let (st2, opts) := triggerApplicationsSearch st1
    (st2, some opts)

/-- Result of a `GetApplications` fetch as `loadApplications` consumes
it: the embedded application list (absent when `result.Embedded` or its
`Applications` is nil) and the optional page metadata
`(TotalPages, TotalElements)`. -/
structure FetchResult where
  embeddedApps : Option (List Application)
  pageMeta : Option (Int × Int)
deriving DecidableEq

/-- Completion handling of `loadApplications` (lines 749-786): an error
only writes the status bar; a nil embedded list clears list and totals;
otherwise the fetched items are `sort.Slice`d (relationally) and written,
with totals when page metadata is present. There is no generation check
of any kind: every completion overwrites unconditionally. -/
def CompleteRel (st : NavState) (res : Except String FetchResult) (st' : NavState) : Prop :=
  match res with
  | .error e => st' = { st with statusBar := "[red]Error: " ++ e ++ "[-]" }
  | .ok r =>
    match r.embeddedApps with
    | none => st' = { st with applications := [], totalPages := 0, totalApps := 0 }
    | some apps =>
      ∃ sorted, sortSliceRel apps sorted ∧
        st' = (match r.pageMeta with
          | some pm =>
            { st with applications := sorted, totalPages := pm.1, totalApps := pm.2 }
          | none => { st with applications := sorted })

/-- Events of the applications-list scope: a user action triggering a new
search (which issues a fetch), and the completion of some issued fetch
arriving on the event loop. -/
inductive NavEvent where
  | trigger
  | complete (res : Except String FetchResult)

/-- Interleaving semantics of the event loop: state mutation is
single-threaded; fetch completions are applied in the order they arrive,
which is independent of the order the fetches were issued. -/
inductive Steps : NavState → List NavEvent → NavState → Prop where
  | done {st} : Steps st [] st
  | trigger {st evs st'} :
      Steps { st with currentPage := 0 } evs st' → Steps st (.trigger :: evs) st'
  | complete {st res st1 evs st'} :
      CompleteRel st res st1 → Steps st1 evs st' → Steps st (.complete res :: evs) st'

/-- Negation of the `sort.Slice` comparator coincides with the global
pair check. -/
theorem less_false_iff (x y : Application) :
    (modifiedAfterLess y x = false) ↔ sortedPairOK x y = true := by
  unfold modifiedAfterLess sortedPairOK
  rcases x.modified with _ | a <;> rcases y.modified with _ | b <;> simp

/-- The pair check is transitive. -/
theorem sortedPairOK_trans : Transitive (fun x y => sortedPairOK x y = true) := by
  intro x y z hxy hyz
  unfold sortedPairOK at *
  rcases hx : x.modified with _ | a <;> rcases hy : y.modified with _ | b <;>
    rcases hz : z.modified with _ | c <;> simp_all
  omega

/-- Example applications from the spec's sort property. -/
def appA : Application := ⟨"A", some 20240101⟩

/-- Example application with an absent modification timestamp. -/
def appB : Application := ⟨"B", none⟩

/-- Example application with the most recent timestamp. -/
def appC : Application := ⟨"C", some 20240601⟩

/-- First of two distinct untimestamped applications. -/
def appB1 : Application := ⟨"B1", none⟩

/-- Second of two distinct untimestamped applications. -/
def appB2 : Application := ⟨"B2", none⟩

/-- Counterexample for C3: on two distinct entries that both lack a
modification timestamp, `sort.Slice` may return them in reversed order —
the swapped output satisfies everything Go guarantees for `sort.Slice`
(sorted permutation), so the displayed list is not the stable sort the
claim states. -/
theorem sortSlice_stability_cex :
    ¬ (∀ output, sortSliceRel [appB1, appB2] output → output = [appB1, appB2]) := by
  intro h
  have hswap : sortSliceRel [appB1, appB2] [appB2, appB1] := by
    constructor
    · exact List.Perm.swap appB2 appB1 []
    · simp [List.chain'_cons, modifiedAfterLess, appB1, appB2]
  exact absurd (h [appB2, appB1] hswap) (by decide)

/-- C3 (amended): every list `sort.Slice` can leave behind is a
permutation of the fetched items in which entries with an absent
timestamp follow every timestamped entry and known timestamps are
non-increasing — and the spec's concrete example
`[A:2024-01-01, B:nil, C:2024-06-01]` is forced to `[C, A, B]`; only the
relative order of two untimestamped entries is not guaranteed. -/
theorem applications_sort_amended :
    (∀ input output, sortSliceRel input output →
        input.Perm output ∧
          List.Pairwise (fun x y => sortedPairOK x y = true) output) ∧
    (∀ output, sortSliceRel [appA, appB, appC] output → output = [appC, appA, appB]) := by
  constructor
  · rintro input output ⟨hperm, hchain⟩
    refine ⟨hperm, ?_⟩
    haveI : IsTrans Application (fun x y => sortedPairOK x y = true) :=
      ⟨fun _ _ _ h1 h2 => sortedPairOK_trans h1 h2⟩
    rw [← List.chain'_iff_pairwise]
    exact List.Chain'.imp (fun a b h => (less_false_iff a b).mp h) hchain
  · rintro output ⟨hperm, hchain⟩
    have hlen := hperm.length_eq
    rcases output with _ | ⟨x, _ | ⟨y, _ | ⟨z, _ | ⟨w, rest⟩⟩⟩⟩ <;>
      simp only [List.length_cons, List.length_nil] at hlen <;> try omega
    have hx : x ∈ [appA, appB, appC] := hperm.mem_iff.mpr (by simp)
    have hy : y ∈ [appA, appB, appC] := hperm.mem_iff.mpr (by simp)
    have hz : z ∈ [appA, appB, appC] := hperm.mem_iff.mpr (by simp)
    simp only [List.mem_cons, List.not_mem_nil, or_false] at hx hy hz
    rcases hx with rfl | rfl | rfl <;> rcases hy with rfl | rfl | rfl <;>
      rcases hz with rfl | rfl | rfl <;>
      first
      | rfl
      | (refine absurd hchain ?_
         simp [List.chain'_cons, modifiedAfterLess, appA, appB, appC]
         done)
      | (refine absurd hperm ?_
         decide)

/-- Sortedness of the forced output of the spec's example. -/
theorem sortSliceRel_example : sortSliceRel [appA, appB, appC] [appC, appA, appB] := by
  constructor
  · decide
  · simp [List.chain'_cons, modifiedAfterLess, appA, appB, appC]

/-- Witness for the amended C3 at the spec's example input. -/
theorem applications_sort_amended_witness :
    sortSliceRel [appA, appB, appC] [appC, appA, appB] ∧
    [appC, appA, appB] = [appC, appA, appB] :=
  ⟨sortSliceRel_example, applications_sort_amended.2 [appC, appA, appB] sortSliceRel_example⟩

/-- Option construction characterized field by field. -/
theorem buildGetApplicationsOptions_eq (st : NavState) :
    buildGetApplicationsOptions st =
      { page := st.currentPage, size := st.pageSize,
        name := if st.searchQuery ≠ "" then st.searchQuery else "",
        scanStatus := if st.scanStatusFilterValue ≠ "" then
          [st.scanStatusFilterValue] else [],
        scanType := if st.scanTypeFilterValue ≠ "" then st.scanTypeFilterValue else "",
        modifiedAfter := if st.modifiedAfterFilterValue ≠ "" then
          st.modifiedAfterFilterValue else "" } := by
  unfold buildGetApplicationsOptions
  split <;> split <;> split <;> split <;> rfl

/-- C5: every filter mutation — name search, scan status, scan type,
modified-after (valid or cleared) — resets the cursor to page 0 and
issues a fetch whose options carry page 0 and the new filter value,
whatever page was shown before. The dropdown handlers receive an option
text, which is never empty ("All" is index 0). -/
theorem filter_mutation_resets_page (st : NavState) (index : Nat) (text : String)
    (htext : text ≠ "")
    (hdate : st.modifiedAfterText = "" ∨ isValidDate st.modifiedAfterText = true) :
    ((searchInputDone st).1.currentPage = 0 ∧
      ∃ opts, (searchInputDone st).2 = some opts ∧ opts.page = 0 ∧
        opts.name = st.searchText) ∧
    ((scanStatusSelected st index text).1.currentPage = 0 ∧
      ∃ opts, (scanStatusSelected st index text).2 = some opts ∧ opts.page = 0 ∧
        opts.scanStatus = (if index = 0 then [] else [text])) ∧
    ((scanTypeSelected st index text).1.currentPage = 0 ∧
      ∃ opts, (scanTypeSelected st index text).2 = some opts ∧ opts.page = 0 ∧
        opts.scanType = (if index = 0 then "" else text)) ∧
    ((modifiedAfterDone st).1.currentPage = 0 ∧
      ∃ opts, (modifiedAfterDone st).2 = some opts ∧ opts.page = 0 ∧
        opts.modifiedAfter = st.modifiedAfterText) := by
  have hguard : ¬ (st.modifiedAfterText ≠ "" ∧ ¬ isValidDate st.modifiedAfterText) := by
    rcases hdate with h | h <;> simp [h]
  refine ⟨⟨rfl, ?_⟩, ⟨rfl, ?_⟩, ⟨rfl, ?_⟩, ?_⟩
  · simp only [searchInputDone, triggerApplicationsSearch, buildGetApplicationsOptions_eq]
    refine ⟨_, rfl, rfl, ?_⟩
    by_cases h : st.searchText = "" <;> simp [h]
  · simp only [scanStatusSelected, triggerApplicationsSearch,
      buildGetApplicationsOptions_eq]
    refine ⟨_, rfl, rfl, ?_⟩
    rcases index with _ | n <;> simp [htext]
  · simp only [scanTypeSelected, triggerApplicationsSearch,
      buildGetApplicationsOptions_eq]
    refine ⟨_, rfl, rfl, ?_⟩
    rcases index with _ | n <;> simp [htext]
  · simp only [modifiedAfterDone, if_neg hguard, triggerApplicationsSearch,
      buildGetApplicationsOptions_eq]
    refine ⟨by trivial, _, rfl, rfl, ?_⟩
    by_cases h : st.modifiedAfterText = "" <;> simp [h]

/-- Session state on page 3 with a valid pending modified-after date,
for the C5 witness. -/
def stPage3 : NavState :=
  { initialNavState with currentPage := 3, modifiedAfterText := "2025-12-17" }

/-- Witness for C5 from page 3 with concrete new filter values. -/
theorem filter_mutation_resets_page_witness :
    ("STATIC" : String) ≠ "" ∧
    (stPage3.modifiedAfterText = "" ∨ isValidDate stPage3.modifiedAfterText = true) ∧
    (searchInputDone stPage3).1.currentPage = 0 ∧
    (modifiedAfterDone stPage3).1.currentPage = 0 :=
  have h := filter_mutation_resets_page stPage3 1 "STATIC" (by decide)
    (Or.inr (by decide))
  ⟨by decide, Or.inr (by decide), h.1.1, h.2.2.2.1⟩

/-- C9: an invalid date in the modified-after field (concretely
`2025-13-45`) leaves the stored filter, the field text and the focus
untouched — the handler returns the state unchanged except for the
status-bar message — and issues no fetch; a valid date (concretely
`2025-12-17`) stores the value and issues a fetch carrying it with
page 0. -/
theorem modifiedAfter_date_validation (st : NavState) :
    isValidDate "2025-13-45" = false ∧
    isValidDate "2025-12-17" = true ∧
    (st.modifiedAfterText ≠ "" → isValidDate st.modifiedAfterText = false →
      modifiedAfterDone st =
        ({ st with statusBar :=
            "[red]Invalid date format. Please use yyyy-MM-dd (e.g., 2025-12-17)[-]" },
          none)) ∧
    (isValidDate st.modifiedAfterText = true →
      (modifiedAfterDone st).1.modifiedAfterFilterValue = st.modifiedAfterText ∧
      ∃ opts, (modifiedAfterDone st).2 = some opts ∧ opts.page = 0 ∧
        opts.modifiedAfter = st.modifiedAfterText) := by
  refine ⟨by decide, by decide, ?_, ?_⟩
  · intro hne hbad
    simp [modifiedAfterDone, hne, hbad]
  · intro hval
    have hguard : ¬ (st.modifiedAfterText ≠ "" ∧ ¬ isValidDate st.modifiedAfterText) := by
      simp [hval]
    simp only [modifiedAfterDone, if_neg hguard, triggerApplicationsSearch,
      buildGetApplicationsOptions_eq]
    refine ⟨by trivial, _, rfl, rfl, ?_⟩
    by_cases h : st.modifiedAfterText = "" <;> simp [h]

/-- Session state with the invalid example date pending, for the C9
witness. -/
def stBadDate : NavState := { initialNavState with modifiedAfterText := "2025-13-45" }

/-- Session state with the valid example date pending, for the C9
witness. -/
def stGoodDate : NavState := { initialNavState with modifiedAfterText := "2025-12-17" }

/-- Witness for C9 at the two concrete dates of the spec. -/
theorem modifiedAfter_date_validation_witness :
    stBadDate.modifiedAfterText ≠ "" ∧
    isValidDate "2025-13-45" = false ∧
    modifiedAfterDone stBadDate =
      ({ stBadDate with statusBar :=
          "[red]Invalid date format. Please use yyyy-MM-dd (e.g., 2025-12-17)[-]" },
        none) ∧
    isValidDate "2025-12-17" = true ∧
    (modifiedAfterDone stGoodDate).1.modifiedAfterFilterValue = "2025-12-17" :=
  ⟨by decide, by decide,
   (modifiedAfter_date_validation stBadDate).2.2.1 (by decide) (by decide),
   by decide,
   ((modifiedAfter_date_validation stGoodDate).2.2.2 (by decide)).1⟩

/-- Data returned by the first-issued fetch in the C2 scenario. -/
def appX : Application := ⟨"X", some 1⟩

/-- Data returned by the second-issued fetch in the C2 scenario. -/
def appY : Application := ⟨"Y", some 2⟩

/-- Fetch result carrying `appX` (the first-issued fetch's payload). -/
def resX : FetchResult := ⟨some [appX], none⟩

/-- Fetch result carrying `appY` (the second-issued fetch's payload). -/
def resY : FetchResult := ⟨some [appY], none⟩

/-- Session state after the second-issued fetch's completion landed. -/
def stAfterY : NavState := { initialNavState with applications := [appY] }

/-- Session state after the stale first-issued fetch's completion
landed on top of it. -/
def stAfterX : NavState := { initialNavState with applications := [appX] }

/-- Counterexample for C2: two searches are triggered for the
applications scope; the first-issued fetch returns `resX`, the
second-issued returns `resY`; the completions arrive in the order `resY`
then `resX` (the earlier-issued fetch completes last). The final visible
list is `[appX]` — the stale completion overwrote state — not the
later-issued fetch's `[appY]`. There is no generation counter anywhere in
the UI struct to discard the stale completion. -/
theorem stale_completion_overwrites_cex :
    ∃ final, Steps initialNavState
        [NavEvent.trigger, NavEvent.trigger,
         NavEvent.complete (.ok resY), NavEvent.complete (.ok resX)] final ∧
      final.applications = [appX] ∧ final.applications ≠ [appY] := by
  have h1 : CompleteRel initialNavState (.ok resY) stAfterY :=
    ⟨[appY], ⟨List.Perm.refl _, List.chain'_singleton _⟩, rfl⟩
  have h2 : CompleteRel stAfterY (.ok resX) stAfterX :=
    ⟨[appX], ⟨List.Perm.refl _, List.chain'_singleton _⟩, rfl⟩
  refine ⟨stAfterX, ?_, rfl, by decide⟩
  apply Steps.trigger
  apply Steps.trigger
  exact Steps.complete h1 (Steps.complete h2 Steps.done)

/-- C2 (amended): the code has no request-generation counter; a fetch
completion unconditionally overwrites the applications-list state, so the
visible result reflects the most recently completed fetch, whatever the
issue order — the run of any event sequence ending in a successful
completion shows exactly that completion's (sorted) data. -/
theorem last_completed_fetch_wins (evs : List NavEvent) (st st' : NavState)
    (r : FetchResult) (apps : List Application)
    (h : Steps st (evs ++ [NavEvent.complete (.ok r)]) st')
    (happs : r.embeddedApps = some apps) :
    ∃ sorted, sortSliceRel apps sorted ∧ st'.applications = sorted := by
  induction evs generalizing st with
  | nil =>
    rw [List.nil_append] at h
    cases h with
    | complete h1 h2 =>
      cases h2
      obtain ⟨emb, pm⟩ := r
      have hemb : emb = some apps := happs
      subst hemb
      unfold CompleteRel at h1
      rcases pm with _ | pm
      · dsimp only at h1
        obtain ⟨sorted, hs, heq⟩ := h1
        exact ⟨sorted, hs, by rw [heq]⟩
      · dsimp only at h1
        obtain ⟨sorted, hs, heq⟩ := h1
        exact ⟨sorted, hs, by rw [heq]⟩
  | cons e evs ih =>
    rw [List.cons_append] at h
    cases h with
    | trigger h' => exact ih _ h'
    | complete h1 h' => exact ih _ h'

/-- Witness for the amended C2: a trigger followed by the completion of a
fetch carrying `appX` leaves `[appX]` visible. -/
theorem last_completed_fetch_wins_witness :
    Steps initialNavState ([NavEvent.trigger] ++ [NavEvent.complete (.ok resX)])
        { initialNavState with applications := [appX] } ∧
    resX.embeddedApps = some [appX] ∧
    ∃ sorted, sortSliceRel [appX] sorted ∧
      ({ initialNavState with applications := [appX] } : NavState).applications = sorted :=
  have hrun : Steps initialNavState
      ([NavEvent.trigger] ++ [NavEvent.complete (.ok resX)])
      { initialNavState with applications := [appX] } :=
    Steps.trigger (Steps.complete
      ⟨[appX], ⟨List.Perm.refl _, List.chain'_singleton _⟩, rfl⟩ Steps.done)
  ⟨hrun, rfl,
   last_completed_fetch_wins [NavEvent.trigger] initialNavState
     { initialNavState with applications := [appX] } resX [appX] hrun rfl⟩

end Veracode
